import Mathlib

/-!
# Verification of the classroom-lighting visualizer core

Shallow embedding of the range-matching / rating engine and the pixel
lighting-simulation transform of the `after_end` repository
(`src/New/simulator.js`, `src/classroom-simulator.js`,
`src/comparisn.-grid.js`), together with proofs of the specified
properties.

JavaScript numbers are modelled as rationals (`ℚ`); all arithmetic used
by the embedded code (comparisons, linear maps, division, `Math.round`,
`Math.min`/`Math.max`, `Math.abs`) is exact on the inputs considered.
Pixel channel bytes are modelled as integers (`ℤ`).
-/

namespace AfterEnd

/-! ## Numeric primitives (`simulator.js` lines 108-116)

`lerp(a, b, t) = a + (b - a) * t` and
`clamp(value) = Math.max(0, Math.min(255, Math.round(value)))`.
JavaScript `Math.round` rounds half-up, i.e. `Math.round x = ⌊x + 1/2⌋`.
-/

def lerp (a b t : ℚ) : ℚ := a + (b - a) * t

def jsRound (q : ℚ) : ℤ := ⌊q + 1/2⌋

def clamp (value : ℚ) : ℤ := max 0 (min 255 (jsRound value))

/-! ## The lighting transform (`processImageWithLighting`)

`src/New/simulator.js` lines 718-820 and `src/classroom-simulator.js`
lines 521-623 contain two textually identical copies of this function;
the embedding below covers both.
-/

/-- The three per-channel colour-temperature multipliers. -/
structure Multipliers where
  red : ℚ
  green : ℚ
  blue : ℚ
deriving DecidableEq, Repr

/-- Kelvin → channel multipliers, `simulator.js` lines 725-767. -/
def kelvinMultipliers (kelvin : ℚ) : Multipliers :=
  if kelvin ≤ 2000 then ⟨1.8, 0.8, 0.4⟩
  else if kelvin ≤ 3000 then ⟨1.6, 0.9, 0.5⟩
  else if kelvin ≤ 4000 then ⟨1.3, 1.0, 0.7⟩
  else if kelvin ≤ 5000 then ⟨1.1, 1.0, 0.9⟩
  else if kelvin ≤ 6000 then ⟨0.9, 1.0, 1.1⟩
  else if kelvin ≤ 7000 then ⟨0.7, 0.9, 1.3⟩
  else ⟨0.5, 0.8, 1.6⟩

/-- Glare → brightness multiplier, `simulator.js` lines 769-778. -/
def brightnessMultiplier (glare : ℚ) : ℚ :=
  if glare ≤ 19 then 1.0 + (glare / 19) * 0.3
  else 1.3 + ((glare - 19) / 9) * 2.7

/-- One RGBA pixel of the image buffer (channel bytes as integers). -/
structure Pixel where
  r : ℤ
  g : ℤ
  b : ℤ
  a : ℤ
deriving DecidableEq, Repr

/-- Colour-temperature stage of the per-pixel loop
(`simulator.js` lines 786-789). -/
def applyCCT (m : Multipliers) (p : Pixel) : Pixel :=
  { r := clamp ((p.r : ℚ) * m.red)
    g := clamp ((p.g : ℚ) * m.green)
    b := clamp ((p.b : ℚ) * m.blue)
    a := p.a }

/-- Glare-brightness stage of the per-pixel loop
(`simulator.js` lines 791-794). -/
def applyBrightness (bright : ℚ) (p : Pixel) : Pixel :=
  { r := clamp ((p.r : ℚ) * bright)
    g := clamp ((p.g : ℚ) * bright)
    b := clamp ((p.b : ℚ) * bright)
    a := p.a }

/-- CRI stage of the per-pixel loop (`simulator.js` lines 796-815):
the conditional colour-accuracy blend (only when `cri < 95`), the
unconditional desaturation blend, and the final clamp of each channel. -/
def applyCRI (cri : ℚ) (p : Pixel) : Pixel :=
  let criFactor : ℚ := cri / 100
  let avg : ℚ := ((p.r : ℚ) + (p.g : ℚ) + (p.b : ℚ)) / 3
  let r1 : ℚ := if cri < 95 then lerp (p.r : ℚ) avg (1 - criFactor) else (p.r : ℚ)
  let g1 : ℚ := if cri < 95 then lerp (p.g : ℚ) avg (1 - criFactor) else (p.g : ℚ)
  let b1 : ℚ := if cri < 95 then lerp (p.b : ℚ) avg (1 - criFactor) else (p.b : ℚ)
  { r := clamp (lerp r1 avg (0.5 * (1 - criFactor)))
    g := clamp (lerp g1 avg (0.5 * (1 - criFactor)))
    b := clamp (lerp b1 avg (0.5 * (1 - criFactor)))
    a := p.a }

/-- The whole body of the per-pixel loop (`simulator.js` lines 781-816). -/
def processPixel (cct cri glare : ℚ) (p : Pixel) : Pixel :=
  applyCRI cri (applyBrightness (brightnessMultiplier glare) (applyCCT (kelvinMultipliers cct) p))

/-- `processImageWithLighting` (`simulator.js` lines 718-820): compute the
channel multipliers and the brightness multiplier once, then run the
per-pixel loop over a fresh copy of the buffer.  The `flicker` argument is
accepted (as in the source signature) but does not influence any pixel. -/
def processImageWithLighting (cct cri glare flicker : ℚ) (buffer : List Pixel) : List Pixel :=
  buffer.map (processPixel cct cri glare)

/-! ## Parameter range records (data model of `newData.json` entries) -/

/-- A closed range `{min, max}` of a parameter range record. -/
structure RRange where
  min : ℚ
  max : ℚ
deriving DecidableEq, Repr

/-- One `{range, rating, reason, recommendation}` record of the catalog. -/
structure RangeRecord where
  range : RRange
  rating : String
  reason : String
  recommendation : String
deriving DecidableEq, Repr

/-- JavaScript `String.prototype.toLowerCase` restricted to the ASCII
letters that occur in rating labels. -/
def jsToLower (s : String) : String := ⟨s.data.map Char.toLower⟩

/-- `getRatingPriority` (`simulator.js` lines 466-474):
`{good: 3, medium: 2, bad: 1}[rating.toLowerCase()] || 0`. -/
def getRatingPriority (rating : String) : ℕ :=
  if jsToLower rating = "good" then 3
  else if jsToLower rating = "medium" then 2
  else if jsToLower rating = "bad" then 1
  else 0

/-- `currentValue >= min && currentValue <= max` (`simulator.js` line 413). -/
def containsValue (value : ℚ) (pd : RangeRecord) : Bool :=
  decide (pd.range.min ≤ value ∧ value ≤ pd.range.max)

/-- The priority the match loop effectively assigns to a record:
`getRatingPriority` of the record's lowercased rating. -/
def recPriority (pd : RangeRecord) : ℕ := getRatingPriority (jsToLower pd.rating)

/-- Largest `recPriority` occurring in a list of records (0 if empty). -/
def maxPrio (l : List RangeRecord) : ℕ :=
  l.foldr (fun pd acc => max (recPriority pd) acc) 0

/-- Loop body of the match scan in `updateParameterValidation`
(`simulator.js` lines 408-424).  The state is the pair
`(bestMatch, bestRating)`; a record replaces the state only when it
contains the value and its rating's priority is strictly higher. -/
def matchStep (value : ℚ) (st : Option RangeRecord × String) (pd : RangeRecord) :
    Option RangeRecord × String :=
  if containsValue value pd then
    let rating := jsToLower pd.rating
    if getRatingPriority rating > getRatingPriority st.2 then (some pd, rating) else st
  else st

/-- The whole match scan, started from `bestMatch = null`,
`bestRating = 'bad'` (`simulator.js` lines 404-424). -/
def simMatch (value : ℚ) (records : List RangeRecord) : Option RangeRecord × String :=
  records.foldl (matchStep value) (none, "bad")

/-- Distance used by the closest-range fallback of
`updateParameterValidation` (`simulator.js` lines 432-434):
`Math.min(Math.abs(value-min), Math.abs(value-max))`. -/
def endpointDistance (value : ℚ) (pd : RangeRecord) : ℚ :=
  min |value - pd.range.min| |value - pd.range.max|

/-- Distance used by the closest-range fallback of `comparisonCards`
(`comparisn.-grid.js` lines 65-66): `Math.abs(value - (min+max)/2)`. -/
def midpointDistance (value : ℚ) (pd : RangeRecord) : ℚ :=
  |value - (pd.range.min + pd.range.max) / 2|

/-- Generic closest-record scan: keep the current best and replace it only
on a strictly smaller distance (both fallback loops start from a `null`
best with distance `Infinity`, so the first record always becomes the
initial best). -/
def closestAux (f : RangeRecord → ℚ) : RangeRecord → List RangeRecord → RangeRecord
  | best, [] => best
  | best, pd :: rest => closestAux f (if f pd < f best then pd else best) rest

/-- Closest record of a list under distance `f` (`none` for an empty
list), first record winning ties. -/
def closestBy (f : RangeRecord → ℚ) : List RangeRecord → Option RangeRecord
  | [] => none
  | pd :: rest => some (closestAux f pd rest)

/-- The `(bestMatch, bestRating)` pair computed by
`updateParameterValidation` (`simulator.js` lines 403-443): the match
scan, and on no match the closest record by `endpointDistance` with
`bestRating = 'bad'`. -/
def updateParameterValidation (value : ℚ) (records : List RangeRecord) :
    Option RangeRecord × String :=
  let st := simMatch value records
  match st.1 with
  | some _ => st
  | none => (closestBy (endpointDistance value) records, "bad")

/-- `getUnit` (`simulator.js` lines 92-106): unit lookup with `''` for
parameters mapped to `''` and for unknown parameters. -/
def getUnit (param : String) : String :=
  if param = "CCT" then "K"
  else if param = "Flicker" then "HZ"
  else if param = "Vertical_Illuminance" then "lux"
  else if param = "Exposure_Duration" then "hours"
  else if param = "Lux" then "lux"
  else ""

/-- The shape of the status text written by `updateParameterValidation`
(`simulator.js` lines 397-401 and 446-459), keeping the interpolated data
in structured form. -/
inductive StatusText where
  | noData : StatusText
  | outsideRange (lo hi : ℚ) (unit : String) : StatusText
  | statusLine (rating reason : String) : StatusText
  | noStandards : StatusText
deriving DecidableEq, Repr

/-- The status text of `updateParameterValidation`
(`simulator.js` lines 391-464): `'No Data Available'` for an empty
catalog; otherwise the outside-range message (with the selected record's
raw `min`/`max` and the parameter's unit) when `bestRating` is `'bad'`
and no record contains the value, the `RATING - reason` line when a
record was selected (with the `'Standard lighting parameter'` default for
an empty reason), and `'NO STANDARDS AVAILABLE'` when none was. -/
def simStatus (paramName : String) (value : ℚ) (records : List RangeRecord) : StatusText :=
  if records = [] then .noData
  else
    let st := updateParameterValidation value records
    match st.1 with
    | some bm =>
        if st.2 = "bad" ∧ ¬ records.any (containsValue value) then
          .outsideRange bm.range.min bm.range.max (getUnit paramName)
        else
          .statusLine st.2 (if bm.reason = "" then "Standard lighting parameter" else bm.reason)
    | none => .noStandards

/-! ## The comparison grid matcher (`comparisn.-grid.js`) -/

/-- Loop body of the match scan in `comparisonCards`
(`comparisn.-grid.js` lines 36-44): every containing record overwrites
the state, with no priority comparison. -/
def gridStep (value : ℚ) (st : Option RangeRecord × String) (pd : RangeRecord) :
    Option RangeRecord × String :=
  if containsValue value pd then (some pd, pd.rating) else st

/-- The whole grid match scan, started from `bestMatch = null`,
`bestRating = 'unknown'` (`comparisn.-grid.js` lines 31-47). -/
def gridMatch (value : ℚ) (records : List RangeRecord) : Option RangeRecord × String :=
  records.foldl (gridStep value) (none, "unknown")

/-- The data interpolated into the card rendered by `comparisonCards`
(`comparisn.-grid.js` lines 49-89). -/
inductive GridCard where
  | matched (rating reason recommendation : String) (lo hi : ℚ) : GridCard
  | outside (lo hi : ℚ) (recommendation : String) : GridCard
  | unknown : GridCard
deriving DecidableEq, Repr

/-- The card produced by `comparisonCards` for one parameter
(`comparisn.-grid.js` lines 31-90): the last containing record's rating,
reason, recommendation and range when a record contains the value;
otherwise the midpoint-closest record's raw range and recommendation;
otherwise the unknown card. -/
def gridCard (value : ℚ) (records : List RangeRecord) : GridCard :=
  match gridMatch value records with
  | (some bm, rating) => .matched rating bm.reason bm.recommendation bm.range.min bm.range.max
  | (none, _) =>
      match closestBy (midpointDistance value) records with
      | some c => .outside c.range.min c.range.max c.recommendation
      | none => .unknown

/-! ## The recommendation-card aggregator (`updateRecommendationCards`,
`simulator.js` lines 1006-1071 and `classroom-simulator.js` lines
710-770, textually identical loops) -/

/-- One `param` entry of the selected environment's data, paired with the
(possibly absent) current value for that parameter. -/
structure EnvParam where
  name : String
  currentValue : Option ℚ
  range : Option RRange
  reason : String
  recommendation : String
deriving DecidableEq, Repr

/-- Whether an entry is counted into `totalParams`
(`simulator.js` lines 1012 and 1018): the key is not `'range'`/`'images'`,
the current value is defined, and the entry has a range. -/
def countsFor (e : EnvParam) : Bool :=
  !(e.name == "range" || e.name == "images") && e.currentValue.isSome && e.range.isSome

/-- Loop body accumulating `(totalScore, totalParams)`
(`simulator.js` lines 1011-1047). -/
def evalStep (t : ℕ × ℕ) (e : EnvParam) : ℕ × ℕ :=
  if e.name = "range" ∨ e.name = "images" then t
  else
    match e.currentValue, e.range with
    | some v, some rg =>
        (if rg.min ≤ v ∧ v ≤ rg.max then t.1 + 1 else t.1, t.2 + 1)
    | _, _ => t

/-- `(totalScore, totalParams)` over the environment's parameters. -/
def evalTotals (env : List EnvParam) : ℕ × ℕ := env.foldl evalStep (0, 0)

/-- `recommendationPercentage = totalParams > 0 ? totalScore/totalParams*100 : 0`
(`simulator.js` line 1055, `classroom-simulator.js` line 754). -/
def recommendationPercentage (env : List EnvParam) : ℚ :=
  if 0 < (evalTotals env).2 then
    (((evalTotals env).1 : ℚ) / ((evalTotals env).2 : ℚ)) * 100
  else 0

/-- Lower bound interpolated into the `'outside recommended range'`
reason of a recommendation card (`simulator.js` line 1041):
`param == "Flicker" ? (1/max)*10000 : min`. -/
def cardDisplayLo (param : String) (mn mx : ℚ) : ℚ :=
  if param = "Flicker" then (1 / mx) * 10000 else mn

/-- Upper bound interpolated into the `'outside recommended range'`
reason of a recommendation card (`simulator.js` line 1041):
`param == "Flicker" ? (1/min)*10000 : max`. -/
def cardDisplayHi (param : String) (mn mx : ℚ) : ℚ :=
  if param = "Flicker" then (1 / mn) * 10000 else mx

/-! ## Basic lemmas about the numeric primitives -/

theorem clamp_nonneg (v : ℚ) : 0 ≤ clamp v := le_max_left 0 _

theorem clamp_le_255 (v : ℚ) : clamp v ≤ 255 :=
  max_le (by norm_num) (min_le_left 255 _)

theorem clamp_intCast (n : ℤ) (h0 : 0 ≤ n) (h255 : n ≤ 255) : clamp (n : ℚ) = n := by
  unfold clamp jsRound
  rw [Int.floor_int_add, show ⌊(1/2 : ℚ)⌋ = 0 by norm_num, add_zero,
    min_eq_right h255, max_eq_right h0]

theorem lerp_zero (a b : ℚ) : lerp a b 0 = a := by simp [lerp]

/-- Projections of `applyCCT`. -/
theorem applyCCT_proj (m : Multipliers) (p : Pixel) :
    (applyCCT m p).r = clamp ((p.r : ℚ) * m.red) ∧
    (applyCCT m p).g = clamp ((p.g : ℚ) * m.green) ∧
    (applyCCT m p).b = clamp ((p.b : ℚ) * m.blue) ∧
    (applyCCT m p).a = p.a := ⟨rfl, rfl, rfl, rfl⟩

/-- Projections of `applyBrightness`. -/
theorem applyBrightness_proj (bright : ℚ) (p : Pixel) :
    (applyBrightness bright p).r = clamp ((p.r : ℚ) * bright) ∧
    (applyBrightness bright p).g = clamp ((p.g : ℚ) * bright) ∧
    (applyBrightness bright p).b = clamp ((p.b : ℚ) * bright) ∧
    (applyBrightness bright p).a = p.a := ⟨rfl, rfl, rfl, rfl⟩

/-! ## C4: the seven Kelvin buckets -/

/-- C4: the (red, green, blue) multipliers are given by the 7 ascending
Kelvin buckets, each inclusive at its upper end, with
`cct = 5000 ↦ (1.1, 1.0, 0.9)` at the exact boundary. -/
theorem kelvin_bucket_table (cct : ℚ) :
    (cct ≤ 2000 → kelvinMultipliers cct = ⟨1.8, 0.8, 0.4⟩) ∧
    (2000 < cct → cct ≤ 3000 → kelvinMultipliers cct = ⟨1.6, 0.9, 0.5⟩) ∧
    (3000 < cct → cct ≤ 4000 → kelvinMultipliers cct = ⟨1.3, 1.0, 0.7⟩) ∧
    (4000 < cct → cct ≤ 5000 → kelvinMultipliers cct = ⟨1.1, 1.0, 0.9⟩) ∧
    (5000 < cct → cct ≤ 6000 → kelvinMultipliers cct = ⟨0.9, 1.0, 1.1⟩) ∧
    (6000 < cct → cct ≤ 7000 → kelvinMultipliers cct = ⟨0.7, 0.9, 1.3⟩) ∧
    (7000 < cct → kelvinMultipliers cct = ⟨0.5, 0.8, 1.6⟩) ∧
    kelvinMultipliers 5000 = ⟨1.1, 1.0, 0.9⟩ := by
  refine ⟨?_, ?_, ?_, ?_, ?_, ?_, ?_, ?_⟩ <;>
    first
      | (intro h₁ h₂; unfold kelvinMultipliers; split_ifs <;> first | rfl | linarith)
      | (intro h₁; unfold kelvinMultipliers; split_ifs <;> first | rfl | linarith)
      | (unfold kelvinMultipliers; norm_num)

/-- Witness for C4: `cct = 2500` lies in the second bucket and
`cct = 5000` at the fourth bucket's upper boundary. -/
theorem kelvin_bucket_table_witness :
    (2000 : ℚ) < 2500 ∧ (2500 : ℚ) ≤ 3000 ∧
    kelvinMultipliers 2500 = ⟨1.6, 0.9, 0.5⟩ ∧
    kelvinMultipliers 5000 = ⟨1.1, 1.0, 0.9⟩ :=
  ⟨by norm_num, by norm_num,
    (kelvin_bucket_table 2500).2.1 (by norm_num) (by norm_num),
    (kelvin_bucket_table 5000).2.2.2.2.2.2.2⟩

/-! ## C5: the glare → brightness curve -/

/-- C5: `brightness = 1 + (glare/19)·0.3` when `glare ≤ 19` (lying in
`[1, 1.3]` for `glare ∈ [0, 19]`), `brightness = 1.3 + ((glare-19)/9)·2.7`
when `glare > 19` with no upper clamp, `brightness 19 = 1.3` and
`brightness 28 = 4` exactly. -/
theorem brightness_curve (glare : ℚ) :
    (glare ≤ 19 → brightnessMultiplier glare = 1 + (glare / 19) * (3/10)) ∧
    (19 < glare → brightnessMultiplier glare = 13/10 + ((glare - 19) / 9) * (27/10)) ∧
    (0 ≤ glare → glare ≤ 19 →
      1 ≤ brightnessMultiplier glare ∧ brightnessMultiplier glare ≤ 13/10) ∧
    brightnessMultiplier 19 = 13/10 ∧
    brightnessMultiplier 28 = 4 := by
  refine ⟨fun h => ?_, fun h => ?_, fun h0 h19 => ?_, ?_, ?_⟩
  · rw [brightnessMultiplier, if_pos h]; norm_num
  · rw [brightnessMultiplier, if_neg (by linarith)]; norm_num
  · rw [brightnessMultiplier, if_pos h19]
    constructor <;> [nlinarith; nlinarith]
  · rw [brightnessMultiplier, if_pos (by norm_num)]; norm_num
  · rw [brightnessMultiplier, if_neg (by norm_num)]; norm_num

/-- Witness for C5: `glare = 10` in the low branch, with the `[1, 1.3]`
bounds. -/
theorem brightness_curve_witness :
    (10 : ℚ) ≤ 19 ∧ (0 : ℚ) ≤ 10 ∧
    brightnessMultiplier 10 = 1 + ((10 : ℚ) / 19) * (3/10) ∧
    (1 ≤ brightnessMultiplier 10 ∧ brightnessMultiplier 10 ≤ 13/10) :=
  ⟨by norm_num, by norm_num,
    (brightness_curve 10).1 (by norm_num),
    (brightness_curve 10).2.2.1 (by norm_num) (by norm_num)⟩

/-! ## C6: output channels always land in [0, 255] -/

/-- C6: every red, green and blue byte of the transform's output is an
integer in `[0, 255]` — each written channel is the result of the
round-and-clamp `clamp`. -/
theorem output_channels_in_range (cct cri glare flicker : ℚ) (buffer : List Pixel)
    (p : Pixel) (hp : p ∈ processImageWithLighting cct cri glare flicker buffer) :
    0 ≤ p.r ∧ p.r ≤ 255 ∧ 0 ≤ p.g ∧ p.g ≤ 255 ∧ 0 ≤ p.b ∧ p.b ≤ 255 := by
  rw [processImageWithLighting, List.mem_map] at hp
  obtain ⟨q, -, rfl⟩ := hp
  exact ⟨clamp_nonneg _, clamp_le_255 _, clamp_nonneg _, clamp_le_255 _,
    clamp_nonneg _, clamp_le_255 _⟩

/-- Witness for C6 at a concrete one-pixel buffer. -/
theorem output_channels_in_range_witness :
    Pixel.mk 0 0 0 7 ∈ processImageWithLighting 5000 100 0 0 [Pixel.mk 0 0 0 7] ∧
    (0 ≤ (0 : ℤ) ∧ (0 : ℤ) ≤ 255 ∧ 0 ≤ (0 : ℤ) ∧ (0 : ℤ) ≤ 255 ∧
      0 ≤ (0 : ℤ) ∧ (0 : ℤ) ≤ 255) := by
  have hm : Pixel.mk 0 0 0 7 ∈ processImageWithLighting 5000 100 0 0 [Pixel.mk 0 0 0 7] := by
    norm_num [processImageWithLighting, processPixel, applyCCT, applyBrightness, applyCRI,
      kelvinMultipliers, brightnessMultiplier, clamp, jsRound, lerp]
  exact ⟨hm, output_channels_in_range 5000 100 0 0 _ _ hm⟩

/-! ## C7: the CRI stage is the identity at cri = 100 -/

theorem applyCRI_hundred (p : Pixel) (hr0 : 0 ≤ p.r) (hr : p.r ≤ 255)
    (hg0 : 0 ≤ p.g) (hg : p.g ≤ 255) (hb0 : 0 ≤ p.b) (hb : p.b ≤ 255) :
    applyCRI 100 p = p := by
  obtain ⟨r, g, b, a⟩ := p
  simp only [applyCRI, if_neg (show ¬((100 : ℚ) < 95) by norm_num)]
  norm_num [lerp]
  exact ⟨clamp_intCast r hr0 hr, clamp_intCast g hg0 hg, clamp_intCast b hb0 hb⟩

/-- C7: at `cri = 100` the conditional colour-accuracy blend is skipped and
the unconditional desaturation blend has factor `0.5·(1 - 1) = 0`, so every
output pixel equals the post-Kelvin/glare pixel unchanged by the CRI
stage. -/
theorem cri_hundred_pixel_unchanged (cct glare : ℚ) (p : Pixel) :
    processPixel cct 100 glare p =
      applyBrightness (brightnessMultiplier glare) (applyCCT (kelvinMultipliers cct) p) := by
  unfold processPixel
  apply applyCRI_hundred <;> first | exact clamp_nonneg _ | exact clamp_le_255 _

/-! ## C9: determinism of the transform -/

/-- C9: the transform is a pure function of the buffer contents and the
four slider values — two invocations with identical inputs (any buffer of
at least one pixel) produce identical output buffers. -/
theorem transform_deterministic (buffer₁ buffer₂ : List Pixel)
    (cct₁ cct₂ cri₁ cri₂ glare₁ glare₂ flicker₁ flicker₂ : ℚ)
    (hbuf : buffer₁ = buffer₂) (hcct : cct₁ = cct₂) (hcri : cri₁ = cri₂)
    (hglare : glare₁ = glare₂) (hflicker : flicker₁ = flicker₂)
    (hsize : 1 ≤ buffer₁.length) :
    processImageWithLighting cct₁ cri₁ glare₁ flicker₁ buffer₁ =
      processImageWithLighting cct₂ cri₂ glare₂ flicker₂ buffer₂ := by
  subst hbuf hcct hcri hglare hflicker; rfl

/-- Witness for C9 at a concrete one-pixel buffer. -/
theorem transform_deterministic_witness :
    1 ≤ [Pixel.mk 1 2 3 4].length ∧
    processImageWithLighting 3000 80 5 2 [Pixel.mk 1 2 3 4] =
      processImageWithLighting 3000 80 5 2 [Pixel.mk 1 2 3 4] :=
  ⟨by simp,
    transform_deterministic [Pixel.mk 1 2 3 4] [Pixel.mk 1 2 3 4] 3000 3000 80 80 5 5 2 2
      rfl rfl rfl rfl rfl (by simp)⟩

/-! ## C10: the alpha byte of every pixel is untouched -/

/-- C10: the per-pixel loop writes only the red, green and blue bytes, so
the output buffer has the same length as the input and every output
pixel's alpha equals the corresponding input pixel's alpha. -/
theorem alpha_bytes_unchanged (cct cri glare flicker : ℚ) (buffer : List Pixel) :
    (processImageWithLighting cct cri glare flicker buffer).map Pixel.a =
      buffer.map Pixel.a ∧
    (processImageWithLighting cct cri glare flicker buffer).length = buffer.length := by
  constructor
  · rw [processImageWithLighting, List.map_map]
    congr 1
  · simp [processImageWithLighting]

/-! ## Lemmas about the match scan of `updateParameterValidation` -/

theorem maxPrio_cons (pd : RangeRecord) (l : List RangeRecord) :
    maxPrio (pd :: l) = max (recPriority pd) (maxPrio l) := rfl

theorem le_maxPrio_of_mem {pd : RangeRecord} {l : List RangeRecord} (h : pd ∈ l) :
    recPriority pd ≤ maxPrio l := by
  induction l with
  | nil => cases h
  | cons q t ih =>
      rw [maxPrio_cons]
      rcases List.mem_cons.1 h with rfl | h'
      · exact le_max_left _ _
      · exact le_trans (ih h') (le_max_right _ _)

theorem matchStep_not_contains {value : ℚ} {pd : RangeRecord}
    (st : Option RangeRecord × String) (h : containsValue value pd = false) :
    matchStep value st pd = st := by
  simp [matchStep, h]

theorem matchStep_contains_low {value : ℚ} {pd : RangeRecord}
    (st : Option RangeRecord × String) (hc : containsValue value pd = true)
    (h : recPriority pd ≤ getRatingPriority st.2) :
    matchStep value st pd = st := by
  unfold matchStep
  rw [hc, if_pos rfl, if_neg]
  exact not_lt.2 h

theorem matchStep_contains_high {value : ℚ} {pd : RangeRecord}
    (st : Option RangeRecord × String) (hc : containsValue value pd = true)
    (h : getRatingPriority st.2 < recPriority pd) :
    matchStep value st pd = (some pd, jsToLower pd.rating) := by
  unfold matchStep
  rw [hc, if_pos rfl,
    if_pos (show getRatingPriority (jsToLower pd.rating) > getRatingPriority st.2 from h)]

theorem foldl_matchStep_stable (value : ℚ) :
    ∀ (l : List RangeRecord) (st : Option RangeRecord × String),
      (∀ pd ∈ l, containsValue value pd = true →
        recPriority pd ≤ getRatingPriority st.2) →
      l.foldl (matchStep value) st = st := by
  intro l
  induction l with
  | nil => intro st _; rfl
  | cons pd t ih =>
      intro st h
      rw [List.foldl_cons]
      have hstep : matchStep value st pd = st := by
        cases hc : containsValue value pd
        · exact matchStep_not_contains st hc
        · exact matchStep_contains_low st hc (h pd (List.mem_cons_self pd t) hc)
      rw [hstep]
      exact ih st fun q hq hcq => h q (List.mem_cons_of_mem _ hq) hcq

theorem filter_cons_true {α : Type} {p : α → Bool} {x : α} (l : List α)
    (h : p x = true) : (x :: l).filter p = x :: l.filter p := by
  simp [List.filter_cons, h]

theorem filter_cons_false {α : Type} {p : α → Bool} {x : α} (l : List α)
    (h : p x = false) : (x :: l).filter p = l.filter p := by
  simp [List.filter_cons, h]

/-- Characterization of the match scan when some containing record has a
rating of strictly higher priority than the running one: the scan ends on
the first containing record of maximal priority. -/
theorem foldl_matchStep_spec (value : ℚ) :
    ∀ (l : List RangeRecord) (ob : Option RangeRecord) (r : String),
      getRatingPriority r < maxPrio (l.filter (containsValue value)) →
      ∃ m l1 l2,
        l.filter (containsValue value) = l1 ++ m :: l2 ∧
        recPriority m = maxPrio (l.filter (containsValue value)) ∧
        (∀ pd ∈ l1, recPriority pd < recPriority m) ∧
        l.foldl (matchStep value) (ob, r) = (some m, jsToLower m.rating) := by
  intro l
  induction l with
  | nil => intro ob r h; simp [maxPrio] at h
  | cons pd t ih =>
      intro ob r h
      rw [List.foldl_cons]
      cases hc : containsValue value pd
      case false =>
        rw [filter_cons_false _ hc] at h ⊢
        rw [matchStep_not_contains _ hc]
        exact ih ob r h
      case true =>
        rw [filter_cons_true _ hc] at h ⊢
        rw [maxPrio_cons] at h
        by_cases hlt : getRatingPriority r < recPriority pd
        · rw [matchStep_contains_high _ hc hlt]
          by_cases hmax : maxPrio (t.filter (containsValue value)) ≤ recPriority pd
          · refine ⟨pd, [], t.filter (containsValue value), by simp, ?_, by simp, ?_⟩
            · rw [maxPrio_cons]
              exact (max_eq_left hmax).symm
            · refine foldl_matchStep_stable value t _ fun q hq hcq => ?_
              exact le_trans (le_maxPrio_of_mem (List.mem_filter.2 ⟨hq, hcq⟩)) hmax
          · push_neg at hmax
            obtain ⟨m, l1, l2, hdec, hmp, hfirst, hfold⟩ :=
              ih (some pd) (jsToLower pd.rating) hmax
            refine ⟨m, pd :: l1, l2, by rw [hdec]; rfl, ?_, ?_, hfold⟩
            · rw [maxPrio_cons, hmp]
              exact (max_eq_right (le_of_lt hmax)).symm
            · intro q hq
              rcases List.mem_cons.1 hq with rfl | hq'
              · rw [hmp]; exact hmax
              · exact hfirst q hq'
        · push_neg at hlt
          rw [matchStep_contains_low _ hc hlt]
          have hF : getRatingPriority r < maxPrio (t.filter (containsValue value)) := by
            rcases lt_max_iff.1 h with h' | h' <;> omega
          obtain ⟨m, l1, l2, hdec, hmp, hfirst, hfold⟩ := ih ob r hF
          refine ⟨m, pd :: l1, l2, by rw [hdec]; rfl, ?_, ?_, hfold⟩
          · rw [maxPrio_cons, hmp]
            exact (max_eq_right (by omega)).symm
          · intro q hq
            rcases List.mem_cons.1 hq with rfl | hq'
            · rw [hmp]; omega
            · exact hfirst q hq'

/-! ## Lemmas about the comparison-grid match scan -/

/-- The grid match scan returns its starting state when no record
contains the value, and otherwise ends on the last containing record. -/
theorem foldl_gridStep_spec (value : ℚ) :
    ∀ (l : List RangeRecord) (st : Option RangeRecord × String),
      (l.filter (containsValue value) = [] → l.foldl (gridStep value) st = st) ∧
      (∀ m, (l.filter (containsValue value)).getLast? = some m →
        l.foldl (gridStep value) st = (some m, m.rating)) := by
  intro l
  induction l with
  | nil => intro st; exact ⟨fun _ => rfl, fun m hm => by simp at hm⟩
  | cons pd t ih =>
      intro st
      constructor
      · intro hnil
        rw [List.foldl_cons]
        cases hc : containsValue value pd
        · rw [filter_cons_false _ hc] at hnil
          rw [show gridStep value st pd = st from by simp [gridStep, hc]]
          exact (ih st).1 hnil
        · rw [filter_cons_true _ hc] at hnil
          cases hnil
      · intro m hm
        rw [List.foldl_cons]
        cases hc : containsValue value pd
        · rw [filter_cons_false _ hc] at hm
          rw [show gridStep value st pd = st from by simp [gridStep, hc]]
          exact (ih st).2 m hm
        · rw [filter_cons_true _ hc] at hm
          rw [show gridStep value st pd = (some pd, pd.rating) from by simp [gridStep, hc]]
          cases hF : t.filter (containsValue value) with
          | nil =>
              rw [hF] at hm
              simp only [List.getLast?_singleton, Option.some.injEq] at hm
              subst hm
              exact (ih _).1 hF
          | cons q qs =>
              rw [hF, List.getLast?_cons_cons] at hm
              exact (ih _).2 m (by rw [hF]; exact hm)

/-! ## Lemmas about the closest-record fallback scans -/

/-- The fold keeping the first strict minimizer: the result is a
minimizer of `f` over `best : l`, and is either `best` itself (when
nothing in `l` beats it strictly) or the first element of `l` strictly
better than everything before it. -/
theorem closestAux_cons (f : RangeRecord → ℚ) (best pd : RangeRecord)
    (t : List RangeRecord) :
    closestAux f best (pd :: t) = closestAux f (if f pd < f best then pd else best) t := rfl

theorem closestAux_spec (f : RangeRecord → ℚ) :
    ∀ (l : List RangeRecord) (best : RangeRecord),
      (∀ pd ∈ l, f (closestAux f best l) ≤ f pd) ∧
      f (closestAux f best l) ≤ f best ∧
      ((closestAux f best l = best ∧ ∀ pd ∈ l, f best ≤ f pd) ∨
        (∃ l1 l2, l = l1 ++ closestAux f best l :: l2 ∧
          f (closestAux f best l) < f best ∧
          ∀ pd ∈ l1, f (closestAux f best l) < f pd)) := by
  intro l
  induction l with
  | nil => intro best; exact ⟨by simp, le_refl _, Or.inl ⟨rfl, by simp⟩⟩
  | cons pd t ih =>
      intro best
      rw [closestAux_cons]
      by_cases hlt : f pd < f best
      · rw [if_pos hlt]
        obtain ⟨hmin, hle, hcase⟩ := ih pd
        set m := closestAux f pd t with hm
        refine ⟨?_, le_trans hle (le_of_lt hlt), ?_⟩
        · intro q hq
          rcases List.mem_cons.1 hq with rfl | hq'
          · exact hle
          · exact hmin q hq'
        · rcases hcase with ⟨heq, hall⟩ | ⟨l1, l2, hdec, hlt2, hfirst⟩
          · refine Or.inr ⟨[], t, by simp [heq], by rw [heq]; exact hlt, by simp⟩
          · refine Or.inr ⟨pd :: l1, l2, by rw [hdec]; rfl,
              lt_trans hlt2 hlt, fun q hq => ?_⟩
            rcases List.mem_cons.1 hq with rfl | hq'
            · exact hlt2
            · exact hfirst q hq'
      · rw [if_neg hlt]
        push_neg at hlt
        obtain ⟨hmin, hle, hcase⟩ := ih best
        set m := closestAux f best t with hm
        refine ⟨?_, hle, ?_⟩
        · intro q hq
          rcases List.mem_cons.1 hq with rfl | hq'
          · exact le_trans hle hlt
          · exact hmin q hq'
        · rcases hcase with ⟨heq, hall⟩ | ⟨l1, l2, hdec, hlt2, hfirst⟩
          · refine Or.inl ⟨heq, fun q hq => ?_⟩
            rcases List.mem_cons.1 hq with rfl | hq'
            · exact hlt
            · exact hall q hq'
          · refine Or.inr ⟨pd :: l1, l2, by rw [hdec]; rfl, hlt2, fun q hq => ?_⟩
            rcases List.mem_cons.1 hq with rfl | hq'
            · exact lt_of_lt_of_le hlt2 hlt
            · exact hfirst q hq'

/-- `closestBy` on a non-empty list returns the first minimizer of `f`. -/
theorem closestBy_spec (f : RangeRecord → ℚ) (records : List RangeRecord)
    (hne : records ≠ []) :
    ∃ m l1 l2, closestBy f records = some m ∧ records = l1 ++ m :: l2 ∧
      (∀ pd ∈ records, f m ≤ f pd) ∧ ∀ pd ∈ l1, f m < f pd := by
  cases records with
  | nil => exact absurd rfl hne
  | cons pd t =>
      obtain ⟨hmin, hle, hcase⟩ := closestAux_spec f t pd
      set m := closestAux f pd t with hm
      rcases hcase with ⟨heq, hall⟩ | ⟨l1, l2, hdec, hlt2, hfirst⟩
      · refine ⟨m, [], t, rfl, by simp [heq], fun q hq => ?_, by simp⟩
        rcases List.mem_cons.1 hq with rfl | hq'
        · exact hle
        · exact hmin q hq'
      · refine ⟨m, pd :: l1, l2, rfl, by rw [hdec]; rfl,
          fun q hq => ?_, fun q hq => ?_⟩
        · rcases List.mem_cons.1 hq with rfl | hq'
          · exact hle
          · exact hmin q hq'
        · rcases List.mem_cons.1 hq with rfl | hq'
          · exact hlt2
          · exact hfirst q hq'

/-! ## Corollaries assembling the validation status -/

theorem simMatch_no_match (value : ℚ) (records : List RangeRecord)
    (h : ∀ pd ∈ records, containsValue value pd = false) :
    simMatch value records = (none, "bad") := by
  refine foldl_matchStep_stable value records (none, "bad") fun pd hpd hc => ?_
  rw [h pd hpd] at hc
  cases hc

theorem updateParameterValidation_no_match (value : ℚ) (records : List RangeRecord)
    (h : ∀ pd ∈ records, containsValue value pd = false) :
    updateParameterValidation value records =
      (closestBy (endpointDistance value) records, "bad") := by
  unfold updateParameterValidation
  rw [simMatch_no_match value records h]

theorem records_any_false (value : ℚ) (records : List RangeRecord)
    (h : ∀ pd ∈ records, containsValue value pd = false) :
    records.any (containsValue value) = false := by
  rw [List.any_eq_false]
  intro pd hpd
  rw [h pd hpd]
  simp

theorem simStatus_outside (pm : String) (value : ℚ) (records : List RangeRecord)
    (hne : records ≠ []) (hout : ∀ pd ∈ records, containsValue value pd = false)
    (m : RangeRecord) (hcb : closestBy (endpointDistance value) records = some m) :
    updateParameterValidation value records = (some m, "bad") ∧
    simStatus pm value records = .outsideRange m.range.min m.range.max (getUnit pm) := by
  have hupd : updateParameterValidation value records = (some m, "bad") := by
    rw [updateParameterValidation_no_match value records hout, hcb]
  refine ⟨hupd, ?_⟩
  unfold simStatus
  rw [if_neg hne, hupd]
  simp [records_any_false value records hout]

theorem simStatus_statusLine (pm : String) (value : ℚ) (records : List RangeRecord)
    (hne : records ≠ []) (m : RangeRecord) (r : String)
    (hupd : updateParameterValidation value records = (some m, r)) (hr : r ≠ "bad") :
    simStatus pm value records =
      .statusLine r (if m.reason = "" then "Standard lighting parameter" else m.reason) := by
  unfold simStatus
  rw [if_neg hne, hupd]
  simp [hr]

/-! ## C1: which record the matchers select on a contained value -/

/-- C1 (amended): when some record contains the value, the validation
matcher selects — among the containing records — the one of highest
rating priority under `good(3) > medium(2) > bad(1) > unknown(0)`,
preferring on priority ties the FIRST containing record in catalog order,
and reports its (lowercased) rating and reason as the matched status, but
only provided the highest priority among the containing records is at
least `medium(2)`; when every containing record is rated bad/unknown the
scan selects nothing and the endpoint-closest fallback record (possibly a
non-containing one) is reported with rating `'bad'`.  The comparison-grid
matcher ignores priority entirely and selects the LAST containing record,
reporting its rating, reason, recommendation and range. -/
theorem matcher_priority_selection (value : ℚ) (pm : String)
    (records : List RangeRecord) :
    (2 ≤ maxPrio (records.filter (containsValue value)) →
      ∃ m l1 l2,
        records.filter (containsValue value) = l1 ++ m :: l2 ∧
        recPriority m = maxPrio (records.filter (containsValue value)) ∧
        (∀ pd ∈ l1, recPriority pd < recPriority m) ∧
        updateParameterValidation value records = (some m, jsToLower m.rating) ∧
        simStatus pm value records =
          .statusLine (jsToLower m.rating)
            (if m.reason = "" then "Standard lighting parameter" else m.reason)) ∧
    (maxPrio (records.filter (containsValue value)) ≤ 1 →
      updateParameterValidation value records =
        (closestBy (endpointDistance value) records, "bad")) ∧
    (∀ m, (records.filter (containsValue value)).getLast? = some m →
      gridCard value records =
        .matched m.rating m.reason m.recommendation m.range.min m.range.max) := by
  refine ⟨fun h2 => ?_, fun hle => ?_, fun m hm => ?_⟩
  · have hlt : getRatingPriority "bad" < maxPrio (records.filter (containsValue value)) := by
      rw [show getRatingPriority "bad" = 1 from by decide]
      omega
    obtain ⟨m, l1, l2, hdec, hmp, hfirst, hfold⟩ :=
      foldl_matchStep_spec value records none "bad" hlt
    have hupd : updateParameterValidation value records = (some m, jsToLower m.rating) := by
      unfold updateParameterValidation simMatch
      rw [hfold]
    have hne : records ≠ [] := by
      intro hnil
      rw [hnil] at hdec
      simp at hdec
    have hrb : jsToLower m.rating ≠ "bad" := by
      intro hb
      have hpm : recPriority m = 1 := by
        rw [recPriority, hb]
        decide
      omega
    exact ⟨m, l1, l2, hdec, hmp, hfirst, hupd,
      simStatus_statusLine pm value records hne m _ hupd hrb⟩
  · have hstable : simMatch value records = (none, "bad") := by
      refine foldl_matchStep_stable value records (none, "bad") fun pd hpd hc => ?_
      have hmem : recPriority pd ≤ maxPrio (records.filter (containsValue value)) :=
        le_maxPrio_of_mem (List.mem_filter.2 ⟨hpd, hc⟩)
      show recPriority pd ≤ getRatingPriority "bad"
      rw [show getRatingPriority "bad" = 1 from by decide]
      omega
    unfold updateParameterValidation
    rw [hstable]
  · have hfold := (foldl_gridStep_spec value records (none, "unknown")).2 m hm
    unfold gridCard gridMatch
    rw [hfold]

/-- Witness for C1 (amended) at the spec's own scenario: one `good`
record `[3000, 4000]` and the value `3500`. -/
theorem matcher_priority_selection_witness :
    2 ≤ maxPrio (([⟨⟨3000, 4000⟩, "good", "r", "rec"⟩] : List RangeRecord).filter
      (containsValue 3500)) ∧
    (([⟨⟨3000, 4000⟩, "good", "r", "rec"⟩] : List RangeRecord).filter
      (containsValue 3500)).getLast? = some ⟨⟨3000, 4000⟩, "good", "r", "rec"⟩ ∧
    (∃ m l1 l2,
      ([⟨⟨3000, 4000⟩, "good", "r", "rec"⟩] : List RangeRecord).filter
        (containsValue 3500) = l1 ++ m :: l2 ∧
      recPriority m = maxPrio (([⟨⟨3000, 4000⟩, "good", "r", "rec"⟩] :
        List RangeRecord).filter (containsValue 3500)) ∧
      (∀ pd ∈ l1, recPriority pd < recPriority m) ∧
      updateParameterValidation 3500 [⟨⟨3000, 4000⟩, "good", "r", "rec"⟩] =
        (some m, jsToLower m.rating) ∧
      simStatus "CCT" 3500 [⟨⟨3000, 4000⟩, "good", "r", "rec"⟩] =
        .statusLine (jsToLower m.rating)
          (if m.reason = "" then "Standard lighting parameter" else m.reason)) ∧
    gridCard 3500 [⟨⟨3000, 4000⟩, "good", "r", "rec"⟩] =
      .matched "good" "r" "rec" 3000 4000 := by
  have hc : containsValue 3500 (⟨⟨3000, 4000⟩, "good", "r", "rec"⟩ : RangeRecord) = true := by
    simp only [containsValue, decide_eq_true_eq]
    norm_num
  have hflt : ([⟨⟨3000, 4000⟩, "good", "r", "rec"⟩] : List RangeRecord).filter
      (containsValue 3500) = [⟨⟨3000, 4000⟩, "good", "r", "rec"⟩] := by
    rw [filter_cons_true _ hc]
    rfl
  have h2 : 2 ≤ maxPrio (([⟨⟨3000, 4000⟩, "good", "r", "rec"⟩] : List RangeRecord).filter
      (containsValue 3500)) := by
    rw [hflt]
    decide
  have hlast : (([⟨⟨3000, 4000⟩, "good", "r", "rec"⟩] : List RangeRecord).filter
      (containsValue 3500)).getLast? = some ⟨⟨3000, 4000⟩, "good", "r", "rec"⟩ := by
    rw [hflt]
    rfl
  exact ⟨h2, hlast,
    (matcher_priority_selection 3500 "CCT" [⟨⟨3000, 4000⟩, "good", "r", "rec"⟩]).1 h2,
    (matcher_priority_selection 3500 "CCT" [⟨⟨3000, 4000⟩, "good", "r", "rec"⟩]).2.2
      ⟨⟨3000, 4000⟩, "good", "r", "rec"⟩ hlast⟩

/-- Counterexample to C1 as stated: (i) on a priority tie between two
containing `good` records the validation matcher keeps the FIRST record,
not the last; (ii) when the only containing record is rated `bad`, the
selected record is the endpoint-closest record `[49,49]`, which does not
contain the value at all; (iii) the grid matcher keeps the last containing
record even though an earlier containing record has strictly higher
priority. -/
theorem matcher_priority_selection_counterexample :
    updateParameterValidation 5
        [⟨⟨0, 10⟩, "good", "A", "recA"⟩, ⟨⟨0, 10⟩, "good", "B", "recB"⟩] =
      (some ⟨⟨0, 10⟩, "good", "A", "recA"⟩, "good") ∧
    (⟨⟨0, 10⟩, "good", "A", "recA"⟩ : RangeRecord) ≠ ⟨⟨0, 10⟩, "good", "B", "recB"⟩ ∧
    updateParameterValidation 50
        [⟨⟨0, 100⟩, "bad", "C", "recC"⟩, ⟨⟨49, 49⟩, "good", "D", "recD"⟩] =
      (some ⟨⟨49, 49⟩, "good", "D", "recD"⟩, "bad") ∧
    containsValue 50 ⟨⟨49, 49⟩, "good", "D", "recD"⟩ = false ∧
    containsValue 50 ⟨⟨0, 100⟩, "bad", "C", "recC"⟩ = true ∧
    gridMatch 5 [⟨⟨0, 10⟩, "good", "E", "recE"⟩, ⟨⟨0, 10⟩, "bad", "F", "recF"⟩] =
      (some ⟨⟨0, 10⟩, "bad", "F", "recF"⟩, "bad") ∧
    getRatingPriority "bad" < getRatingPriority "good" := by
  have h1 : jsToLower "good" = "good" := by decide
  have h2 : jsToLower "bad" = "bad" := by decide
  have h3 : getRatingPriority "good" = 3 := by decide
  have h4 : getRatingPriority "bad" = 1 := by decide
  refine ⟨?_, by simp, ?_, by norm_num [containsValue], ?_, ?_, by decide⟩
  · norm_num [updateParameterValidation, simMatch, matchStep, containsValue,
      decide_eq_true_eq, h1, h3, h4]
  · norm_num [updateParameterValidation, simMatch, matchStep, containsValue,
      decide_eq_true_eq, h2, h4, closestBy, closestAux, endpointDistance,
      abs_of_nonneg, abs_of_nonpos]
  · norm_num [containsValue]
  · norm_num [gridMatch, gridStep, containsValue, decide_eq_true_eq]

/-! ## C2: which record the matchers select on an uncontained value -/

/-- C2 (amended): when no record contains the value, the validation
matcher reports non-matched status with rating forced to `'bad'` and
selects the record minimizing the distance to the nearer of its two
endpoints `min(|v-min|, |v-max|)` (ties → first in catalog order),
displaying an outside-range message with that record's stored bounds; the
comparison-grid matcher instead selects the record whose range midpoint
is numerically closest (ties → first), reporting that record's
recommendation and range. -/
theorem closest_fallback_selection (value : ℚ) (pm : String)
    (records : List RangeRecord) (hne : records ≠ [])
    (hout : ∀ pd ∈ records, containsValue value pd = false) :
    (∃ m l1 l2, records = l1 ++ m :: l2 ∧
      updateParameterValidation value records = (some m, "bad") ∧
      (∀ pd ∈ records, endpointDistance value m ≤ endpointDistance value pd) ∧
      (∀ pd ∈ l1, endpointDistance value m < endpointDistance value pd) ∧
      simStatus pm value records =
        .outsideRange m.range.min m.range.max (getUnit pm)) ∧
    (∃ c l1 l2, records = l1 ++ c :: l2 ∧
      gridCard value records = .outside c.range.min c.range.max c.recommendation ∧
      (∀ pd ∈ records, midpointDistance value c ≤ midpointDistance value pd) ∧
      (∀ pd ∈ l1, midpointDistance value c < midpointDistance value pd)) := by
  constructor
  · obtain ⟨m, l1, l2, hcb, hdec, hmin, hfirst⟩ :=
      closestBy_spec (endpointDistance value) records hne
    obtain ⟨hupd, hstat⟩ := simStatus_outside pm value records hne hout m hcb
    exact ⟨m, l1, l2, hdec, hupd, hmin, hfirst, hstat⟩
  · obtain ⟨c, l1, l2, hcb, hdec, hmin, hfirst⟩ :=
      closestBy_spec (midpointDistance value) records hne
    have hnil : records.filter (containsValue value) = [] := by
      rw [List.filter_eq_nil_iff]
      intro pd hpd
      rw [hout pd hpd]
      simp
    have hfold := (foldl_gridStep_spec value records (none, "unknown")).1 hnil
    have hcard : gridCard value records =
        .outside c.range.min c.range.max c.recommendation := by
      unfold gridCard gridMatch
      rw [hfold, hcb]
    exact ⟨c, l1, l2, hdec, hcard, hmin, hfirst⟩

/-- Witness for C2 (amended) at the spec's own scenario: the single good
record `[3000, 4000]` and the value `9000`. -/
theorem closest_fallback_selection_witness :
    ([⟨⟨3000, 4000⟩, "good", "r", "rec"⟩] : List RangeRecord) ≠ [] ∧
    containsValue 9000 ⟨⟨3000, 4000⟩, "good", "r", "rec"⟩ = false ∧
    (∃ m l1 l2,
      ([⟨⟨3000, 4000⟩, "good", "r", "rec"⟩] : List RangeRecord) = l1 ++ m :: l2 ∧
      updateParameterValidation 9000 [⟨⟨3000, 4000⟩, "good", "r", "rec"⟩] =
        (some m, "bad") ∧
      (∀ pd ∈ ([⟨⟨3000, 4000⟩, "good", "r", "rec"⟩] : List RangeRecord),
        endpointDistance 9000 m ≤ endpointDistance 9000 pd) ∧
      (∀ pd ∈ l1, endpointDistance 9000 m < endpointDistance 9000 pd) ∧
      simStatus "CCT" 9000 [⟨⟨3000, 4000⟩, "good", "r", "rec"⟩] =
        .outsideRange m.range.min m.range.max (getUnit "CCT")) := by
  have hc : containsValue 9000 (⟨⟨3000, 4000⟩, "good", "r", "rec"⟩ : RangeRecord) = false := by
    norm_num [containsValue]
  have hout : ∀ pd ∈ ([⟨⟨3000, 4000⟩, "good", "r", "rec"⟩] : List RangeRecord),
      containsValue 9000 pd = false := by
    intro pd hpd
    rw [List.mem_singleton.1 hpd]
    exact hc
  have hne : ([⟨⟨3000, 4000⟩, "good", "r", "rec"⟩] : List RangeRecord) ≠ [] := by simp
  exact ⟨hne, hc, (closest_fallback_selection 9000 "CCT" _ hne hout).1⟩

/-- Counterexample to C2 as stated: for value `101` with records
`[0,100]` (endpoint distance 1, midpoint distance 51) and `[110,112]`
(endpoint distance 9, midpoint distance 10), the validation matcher
selects `[0,100]`, even though the record with the nearest midpoint is
`[110,112]`. -/
theorem closest_fallback_selection_counterexample :
    containsValue 101 ⟨⟨0, 100⟩, "good", "A", "recA"⟩ = false ∧
    containsValue 101 ⟨⟨110, 112⟩, "medium", "B", "recB"⟩ = false ∧
    updateParameterValidation 101
        [⟨⟨0, 100⟩, "good", "A", "recA"⟩, ⟨⟨110, 112⟩, "medium", "B", "recB"⟩] =
      (some ⟨⟨0, 100⟩, "good", "A", "recA"⟩, "bad") ∧
    midpointDistance 101 ⟨⟨110, 112⟩, "medium", "B", "recB"⟩ <
      midpointDistance 101 ⟨⟨0, 100⟩, "good", "A", "recA"⟩ ∧
    (⟨⟨0, 100⟩, "good", "A", "recA"⟩ : RangeRecord) ≠
      ⟨⟨110, 112⟩, "medium", "B", "recB"⟩ := by
  refine ⟨by norm_num [containsValue], by norm_num [containsValue], ?_, ?_, by simp⟩
  · norm_num [updateParameterValidation, simMatch, matchStep, containsValue,
      decide_eq_true_eq, closestBy, closestAux, endpointDistance,
      abs_of_nonneg, abs_of_nonpos]
  · norm_num [midpointDistance, abs_of_nonneg, abs_of_nonpos]

/-! ## C3: how the outside-range messages display the stored bounds -/

/-- C3 (amended): only the recommendation-card message re-inverts the
stored bounds through the `10000/x` transform, and only for the
`Flicker` key (displayed lower bound `10000/max`, displayed upper bound
`10000/min`; every other parameter's bounds pass through unchanged);
the per-parameter validation status displays the selected record's stored
`min` and `max` unchanged for every parameter, including `Flicker`. -/
theorem flicker_bound_display (pm : String) (mn mx value : ℚ)
    (records : List RangeRecord) (hne : records ≠ [])
    (hout : ∀ pd ∈ records, containsValue value pd = false) :
    (cardDisplayLo "Flicker" mn mx = 10000 / mx ∧
      cardDisplayHi "Flicker" mn mx = 10000 / mn) ∧
    (pm ≠ "Flicker" → cardDisplayLo pm mn mx = mn ∧ cardDisplayHi pm mn mx = mx) ∧
    (∃ m, closestBy (endpointDistance value) records = some m ∧
      simStatus pm value records =
        .outsideRange m.range.min m.range.max (getUnit pm)) := by
  refine ⟨⟨?_, ?_⟩, fun hpm => ⟨?_, ?_⟩, ?_⟩
  · rw [cardDisplayLo, if_pos rfl]; ring
  · rw [cardDisplayHi, if_pos rfl]; ring
  · rw [cardDisplayLo, if_neg hpm]
  · rw [cardDisplayHi, if_neg hpm]
  · obtain ⟨m, l1, l2, hcb, -, -, -⟩ := closestBy_spec (endpointDistance value) records hne
    exact ⟨m, hcb, (simStatus_outside pm value records hne hout m hcb).2⟩

/-- Witness for C3 (amended) at concrete bounds and a concrete
out-of-range value. -/
theorem flicker_bound_display_witness :
    ([⟨⟨3000, 4000⟩, "good", "r", "rec"⟩] : List RangeRecord) ≠ [] ∧
    containsValue 9000 ⟨⟨3000, 4000⟩, "good", "r", "rec"⟩ = false ∧
    ("CCT" : String) ≠ "Flicker" ∧
    (cardDisplayLo "Flicker" 10 20 = 10000 / 20 ∧
      cardDisplayHi "Flicker" 10 20 = 10000 / 10) ∧
    (cardDisplayLo "CCT" 3000 4000 = 3000 ∧ cardDisplayHi "CCT" 3000 4000 = 4000) ∧
    (∃ m, closestBy (endpointDistance 9000) [⟨⟨3000, 4000⟩, "good", "r", "rec"⟩] =
        some m ∧
      simStatus "CCT" 9000 [⟨⟨3000, 4000⟩, "good", "r", "rec"⟩] =
        .outsideRange m.range.min m.range.max (getUnit "CCT")) := by
  have hc : containsValue 9000 (⟨⟨3000, 4000⟩, "good", "r", "rec"⟩ : RangeRecord) = false := by
    norm_num [containsValue]
  have hout : ∀ pd ∈ ([⟨⟨3000, 4000⟩, "good", "r", "rec"⟩] : List RangeRecord),
      containsValue 9000 pd = false := by
    intro pd hpd
    rw [List.mem_singleton.1 hpd]
    exact hc
  have hne : ([⟨⟨3000, 4000⟩, "good", "r", "rec"⟩] : List RangeRecord) ≠ [] := by simp
  exact ⟨hne, hc, by decide,
    (flicker_bound_display "CCT" 10 20 9000 _ hne hout).1,
    (flicker_bound_display "CCT" 3000 4000 9000 _ hne hout).2.1 (by decide),
    (flicker_bound_display "CCT" 3000 4000 9000 _ hne hout).2.2⟩

/-- Counterexample to C3 as stated: for a `Flicker` value outside the
only record's range `[10, 20]`, the validation status message displays
the stored bounds `10` and `20` unchanged — not the re-inverted
`10000/20 = 500` and `10000/10 = 1000` that the claim requires of every
outside-range message. -/
theorem flicker_bound_display_counterexample :
    simStatus "Flicker" 30 [⟨⟨10, 20⟩, "good", "fr", "fc"⟩] =
      .outsideRange 10 20 "HZ" ∧
    ¬((10 : ℚ) = 10000 / 20 ∧ (20 : ℚ) = 10000 / 10) := by
  constructor
  · have hc : containsValue 30 (⟨⟨10, 20⟩, "good", "fr", "fc"⟩ : RangeRecord) = false := by
      norm_num [containsValue]
    have hout : ∀ pd ∈ ([⟨⟨10, 20⟩, "good", "fr", "fc"⟩] : List RangeRecord),
        containsValue 30 pd = false := by
      intro pd hpd
      rw [List.mem_singleton.1 hpd]
      exact hc
    have hcb : closestBy (endpointDistance 30) [⟨⟨10, 20⟩, "good", "fr", "fc"⟩] =
        some ⟨⟨10, 20⟩, "good", "fr", "fc"⟩ := rfl
    exact (simStatus_outside "Flicker" 30 _ (by simp) hout _ hcb).2
  · norm_num

/-! ## C8: the recommendation percentage never divides by zero -/

theorem evalStep_snd (t : ℕ × ℕ) (e : EnvParam) :
    (evalStep t e).2 = t.2 + (if countsFor e then 1 else 0) := by
  obtain ⟨name, cv, rg, rs, rc⟩ := e
  unfold evalStep countsFor
  by_cases h : name = "range" ∨ name = "images"
  · rcases h with h | h <;> simp [h]
  · push_neg at h
    cases cv <;> cases rg <;> simp [h.1, h.2]

theorem evalTotals_aux_snd (env : List EnvParam) : ∀ t : ℕ × ℕ,
    (env.foldl evalStep t).2 = t.2 + env.countP countsFor := by
  induction env with
  | nil => intro t; simp
  | cons e env ih =>
      intro t
      rw [List.foldl_cons, ih, List.countP_cons, evalStep_snd]
      by_cases hc : countsFor e <;> simp [hc] <;> omega

theorem evalTotals_snd (env : List EnvParam) :
    (evalTotals env).2 = env.countP countsFor := by
  simpa using evalTotals_aux_snd env (0, 0)

/-- C8: the aggregator's percentage is `totalScore/totalParams·100` when
at least one parameter was evaluated, and exactly `0` when
`totalParams = 0` — which happens precisely when no entry has both a
current value and a catalog range (under a non-reserved key). -/
theorem percentage_no_division_by_zero (env : List EnvParam) :
    (0 < (evalTotals env).2 →
      recommendationPercentage env =
        ((evalTotals env).1 : ℚ) / ((evalTotals env).2 : ℚ) * 100) ∧
    ((evalTotals env).2 = 0 → recommendationPercentage env = 0) ∧
    ((evalTotals env).2 = 0 ↔ ∀ e ∈ env, countsFor e = false) := by
  refine ⟨fun h => ?_, fun h => ?_, ?_⟩
  · rw [recommendationPercentage, if_pos h]
  · rw [recommendationPercentage, if_neg (by omega)]
  · rw [evalTotals_snd, List.countP_eq_zero]
    simp

/-- Witness for C8: a singleton environment with one evaluated, matched
parameter gives `1/1·100`, and the empty environment gives `0`. -/
theorem percentage_no_division_by_zero_witness :
    0 < (evalTotals [⟨"CCT", some 3500, some ⟨3000, 4000⟩, "r", "rec"⟩]).2 ∧
    recommendationPercentage [⟨"CCT", some 3500, some ⟨3000, 4000⟩, "r", "rec"⟩] =
      ((evalTotals [⟨"CCT", some 3500, some ⟨3000, 4000⟩, "r", "rec"⟩]).1 : ℚ) /
        ((evalTotals [⟨"CCT", some 3500, some ⟨3000, 4000⟩, "r", "rec"⟩]).2 : ℚ) * 100 ∧
    (evalTotals ([] : List EnvParam)).2 = 0 ∧
    recommendationPercentage ([] : List EnvParam) = 0 := by
  have h1 : 0 < (evalTotals [⟨"CCT", some 3500, some ⟨3000, 4000⟩, "r", "rec"⟩]).2 := by
    norm_num [evalTotals, evalStep, if_neg (show ¬("CCT" = "range" ∨ "CCT" = "images") by decide)]
  have h2 : (evalTotals ([] : List EnvParam)).2 = 0 := rfl
  exact ⟨h1, (percentage_no_division_by_zero _).1 h1, h2,
    (percentage_no_division_by_zero _).2.1 h2⟩

end AfterEnd
